import Mathlib

/-!
Verification of the schema reconciliation engine of `agent_system`
(`src/core/database.py`, class `DatabaseManager`).

The Python code is shallowly embedded: every database round trip
(introspection query, DDL statement, transaction boundary) becomes an
explicit event, failures of individual calls are driven by a failure
oracle, and `compare_and_sync_schema`, `get_unique_constraints` and
`filter_new_data` become pure Lean functions over that model.
-/

/-! ## String helpers (Python `in`, `lower`, `sorted`) -/

/-- `charsIsPfxOf n h` is true when the char list `n` starts `h`. -/
def charsIsPfxOf : List Char → List Char → Bool
  | [], _ => true
  | _ :: _, [] => false
  | a :: as, b :: bs => a == b && charsIsPfxOf as bs

/-- `charsHasSub n h` is true when `n` occurs contiguously in `h`. -/
def charsHasSub (needle : List Char) : List Char → Bool
  | [] => charsIsPfxOf needle []
  | c :: t => charsIsPfxOf needle (c :: t) || charsHasSub needle t

/-- Python's `needle in hay` on strings. -/
def strContains (needle hay : String) : Bool :=
  charsHasSub needle.data hay.data

/-- Python's `lower`/`upper`, computed on the character list. -/
def strToLower (s : String) : String := String.mk (s.data.map Char.toLower)

def strToUpper (s : String) : String := String.mk (s.data.map Char.toUpper)

/-- Insert a string into a list that is kept in ascending order. -/
def insertStr (x : String) : List String → List String
  | [] => [x]
  | y :: ys => if decide (y < x) then y :: insertStr x ys else x :: y :: ys

/-- Python's `sorted` on a list of strings (ascending). -/
def sortStrings : List String → List String
  | [] => []
  | x :: xs => insertStr x (sortStrings xs)

/-! ## Type Compatibility Oracle

`database.py` compares column types by the lowercased Python class name
of the SQLAlchemy type object (`type(col.type).__name__.lower()`).
Two variants appear in the source:
the diff-phase check (lines 130-144) and the alter-phase check
(lines 333-345). -/

/-- The nine keyword tests shared by both compatibility checks
(lines 133-141 and 336-344): both names must contain one common
family keyword. -/
def sharedFamilyKeyword (a b : String) : Bool :=
  (strContains "int" a && strContains "int" b) ||
  (strContains "char" a && strContains "char" b) ||
  (strContains "text" a && strContains "text" b) ||
  (strContains "date" a && strContains "date" b) ||
  (strContains "time" a && strContains "time" b) ||
  (strContains "bool" a && strContains "bool" b) ||
  (strContains "num" a && strContains "num" b) ||
  (strContains "float" a && strContains "float" b) ||
  (strContains "lob" a && strContains "lob" b)

/-- Diff-phase compatibility (lines 130-144): a type mismatch is
recorded only when neither name contains the other and no family
keyword is shared.  `isCompatibleDiff` is the negation of
"mismatch recorded". -/
def isCompatibleDiff (ormT dbT : String) : Bool :=
  if !(strContains ormT dbT) && !(strContains dbT ormT) then
    sharedFamilyKeyword ormT dbT
  else true

/-- Alter-phase compatibility (lines 333-345): equal class names or a
shared family keyword. -/
def isCompatibleAlter (ormT dbT : String) : Bool :=
  ormT == dbT || sharedFamilyKeyword ormT dbT

/-- Modelled from the spec: the spec's nine type families in its fixed
priority order (large-object, boolean, date, time, numeric,
floating-point, integer, character, text); a type classifies into the
first family whose keyword it contains.  This definition follows the
spec's words (sections 4.1 and the glossary), not the source, and is
used only to compare the spec's oracle with the code's. -/
def specFamilyOrder : List String :=
  ["lob", "bool", "date", "time", "num", "float", "int", "char", "text"]

/-- Modelled from the spec: keyword classification of a type name into
one of the nine families; `none` means unclassifiable. -/
def classifyFamily (t : String) : Option String :=
  specFamilyOrder.find? (fun k => strContains k t)

/-! ## Data model

SQLAlchemy type objects become a closed enumeration; `typeClassName`
is `type(x).__name__.lower()` and `isTextualType` is the
`isinstance(t, (String, Text, Unicode, UnicodeText))` test of
line 354.  Compiled type strings (`t.compile(dialect)`) are carried as
data on each column, since compilation happens in the SQLAlchemy
library, outside this repository. -/

inductive SqlType
  | integer
  | bigInteger
  | smallInteger
  | string (len : Option Nat)
  | text
  | unicode
  | unicodeText
  | boolean
  | date
  | dateTime (timezone : Bool)
  | time
  | numeric
  | float
  | json
  | largeBinary
  | other (clsName : String)
deriving DecidableEq

/-- `type(x).__name__.lower()` for each modelled SQLAlchemy type. -/
def typeClassName : SqlType → String
  | .integer => "integer"
  | .bigInteger => "biginteger"
  | .smallInteger => "smallinteger"
  | .string _ => "string"
  | .text => "text"
  | .unicode => "unicode"
  | .unicodeText => "unicodetext"
  | .boolean => "boolean"
  | .date => "date"
  | .dateTime _ => "datetime"
  | .time => "time"
  | .numeric => "numeric"
  | .float => "float"
  | .json => "json"
  | .largeBinary => "largebinary"
  | .other n => n

/-- `isinstance(t, (String, Text, Unicode, UnicodeText))` (line 354);
`Unicode` subclasses `String` and `UnicodeText` subclasses `Text`. -/
def isTextualType : SqlType → Bool
  | .string _ => true
  | .text => true
  | .unicode => true
  | .unicodeText => true
  | _ => false

/-- A declared (ORM) column: name, SQLAlchemy type, the
dialect-compiled type string, nullability, primary-key and unique
flags, and the string rendering of its default (lines 154-161),
`none` when absent. -/
structure OrmColumn where
  name : String
  type : SqlType
  compiled : String
  nullable : Bool
  primaryKey : Bool
  unique : Bool
  default : Option String
deriving DecidableEq

/-- A declared (ORM) table: columns, primary-key column names,
table-level unique constraints and indexes (each a list of column
names). -/
structure OrmTable where
  name : String
  columns : List OrmColumn
  pkColumns : List String
  uniqueConstraints : List (List String)
  indexes : List (List String)
deriving DecidableEq

/-- A live column as returned by `inspect(conn).get_columns` — name,
type object, compiled type, nullability and default string. -/
structure DbColumn where
  name : String
  type : SqlType
  compiled : String
  nullable : Bool
  default : Option String
deriving DecidableEq

/-- A live index as returned by `get_indexes`: its column names and
uniqueness flag. -/
structure IndexInfo where
  cols : List String
  unique : Bool
deriving DecidableEq

/-- A live table with everything the introspector can report. -/
structure DbTable where
  name : String
  columns : List DbColumn
  pkCols : List String
  uniqueConstraints : List (List String)
  indexes : List IndexInfo
deriving DecidableEq

/-- The live database: the list of its tables. -/
abbrev DbState := List DbTable

def findTable (db : DbState) (t : String) : Option DbTable :=
  db.find? (fun tb => tb.name == t)

def getColumnsOf (db : DbState) (t : String) : List DbColumn :=
  match findTable db t with
  | none => []
  | some tb => tb.columns

def getUqOf (db : DbState) (t : String) : List (List String) :=
  match findTable db t with
  | none => []
  | some tb => tb.uniqueConstraints

def getIdxOf (db : DbState) (t : String) : List IndexInfo :=
  match findTable db t with
  | none => []
  | some tb => tb.indexes

/-! ## Events and failure oracle -/

/-- The introspection queries issued against the live database. -/
inductive Query
  | tableNames
  | getColumns (t : String)
  | getPk (t : String)
  | getUq (t : String)
  | getIdx (t : String)
deriving DecidableEq

/-- The DDL statements the synchronizer can issue.  `createAll` is
`Base.metadata.create_all`; the others carry the data interpolated
into the corresponding `ALTER TABLE` / `ADD CONSTRAINT` /
`CREATE INDEX` statement. -/
inductive CastTarget
  | toInteger
  | toNumeric
  | toBoolean
  | toDate
  | toTimestamp (tz : Bool)
  | toJsonb
deriving DecidableEq

inductive Stmt
  | createAll
  | addColumn (table col : String) (ty : SqlType) (compiled : String) (notNull : Bool)
  | alterType (table col : String) (ty : SqlType) (compiled : String) (usingCast : Option CastTarget)
  | alterNullable (table col : String) (makeNullable : Bool)
  | addUnique (table : String) (cols : List String)
  | createIndex (table : String) (cols : List String)
deriving DecidableEq

/-- One observable step of a reconciliation run: a transaction
boundary, an introspection query, or an executed statement together
with its success bit (`false` = the statement raised and the error was
logged). -/
inductive Event
  | txnBegin
  | txnCommit
  | txnRollback
  | introspect (q : Query)
  | stmt (s : Stmt) (ok : Bool)
deriving DecidableEq

def isStmtEvent : Event → Bool
  | .stmt _ _ => true
  | _ => false

def isTxnEvent : Event → Bool
  | .txnBegin => true
  | .txnCommit => true
  | .txnRollback => true
  | _ => false

def isTxnBeginEv : Event → Bool
  | .txnBegin => true
  | _ => false

def isTxnCommitEv : Event → Bool
  | .txnCommit => true
  | _ => false

/-- The statements attempted during a trace, in order. -/
def attemptedStmts (tr : List Event) : List Stmt :=
  tr.filterMap (fun e => match e with | .stmt s _ => some s | _ => none)

/-- Events strictly inside the first transaction of a trace. -/
def betweenBeginCommit (tr : List Event) : List Event :=
  ((tr.dropWhile (fun e => !isTxnBeginEv e)).drop 1).takeWhile
    (fun e => !isTxnCommitEv e)

/-- Which introspection calls of the diff pass raise. -/
structure InspectFails where
  tableList : Bool
  cols : String → Bool
  pk : String → Bool
  uq : String → Bool
  idx : String → Bool

/-- Failure oracle for one reconciliation run: which introspection
calls, re-fetch calls and statements raise. -/
structure FailureOracle where
  inspect : InspectFails
  refetchCols : String → Bool
  refetchUq : String → Bool
  refetchIdx : String → Bool
  createAll : Bool
  stmt : Stmt → Bool

/-- The all-succeeding oracle. -/
def oracleNone : FailureOracle :=
  { inspect := { tableList := false, cols := fun _ => false, pk := fun _ => false,
                 uq := fun _ => false, idx := fun _ => false }
    refetchCols := fun _ => false
    refetchUq := fun _ => false
    refetchIdx := fun _ => false
    createAll := false
    stmt := fun _ => false }

/-! ## Schema Differ (`compare_and_sync_schema`, lines 71-257) -/

/-- Python set equality of two name collections. -/
def sameStringSet (a b : List String) : Bool :=
  a.all (fun x => b.contains x) && b.all (fun x => a.contains x)

/-- Python set equality of two collections of sorted column tuples. -/
def sameTupleSet (a b : List (List String)) : Bool :=
  a.all (fun x => b.contains x) && b.all (fun x => a.contains x)

/-- Normalisation of default values (lines 166-167): the string
`'None'` is turned back into `None`. -/
def normNone : Option String → Option String
  | some s => if s == "None" then none else some s
  | none => none

/-- The three per-column attribute checks of the diff pass. -/
inductive AttrDetail
  | typeMismatch
  | nullableMismatch
  | defaultMismatch
deriving DecidableEq

/-- Lines 118-176: the `column_mismatch_details` collected for one
column present both in the ORM and in the live table — type via the
diff-phase oracle, nullability by boolean equality, defaults by
normalised string equality with the SQL-NULL exemption of line 175. -/
def attrDetails (c : OrmColumn) (dc : DbColumn) : List AttrDetail :=
  let typeD :=
    if isCompatibleDiff (typeClassName c.type) (typeClassName dc.type) then []
    else [AttrDetail.typeMismatch]
  let nullD := if c.nullable != dc.nullable then [AttrDetail.nullableMismatch] else []
  let ormD := normNone c.default
  let dbD := normNone dc.default
  let defD :=
    if ormD != dbD then
      if ormD == none
          && (match dbD with
              | some s => !s.isEmpty && strContains "NULL" (strToUpper s)
              | none => false) then []
      else [AttrDetail.defaultMismatch]
    else []
  typeD ++ nullD ++ defD

/-- What the diff pass can record against one table; each constructor
corresponds to one `logger.warning`/`logger.error` call that also adds
the table to `mismatched_tables`. -/
inductive MismatchRecord
  | missingTable
  | columnSetMismatch
  | columnMismatch (col : String) (details : List AttrDetail)
  | columnNotFound (col : String)
  | inspectColumnsError
  | pkMismatch
  | pkError
  | uqMismatch
  | uqError
  | idxMismatch
  | idxError
deriving DecidableEq

/-- A record produced by the column block of the diff pass (as opposed
to the table-level primary-key/unique/index comparisons). -/
def isColumnLevelRecord : MismatchRecord → Bool
  | .columnSetMismatch => true
  | .columnMismatch _ _ => true
  | .columnNotFound _ => true
  | .inspectColumnsError => true
  | _ => false

/-- Lines 95-194: compare the column sets and, only when the name sets
agree, the per-column attributes.  A differing name set yields the
single table-level record of line 100 and skips every per-column
check. -/
def diffColumnsBlock (orm : OrmTable) (dbCols : List DbColumn) : List MismatchRecord :=
  let dbNames := dbCols.map (fun c => c.name)
  let ormNames := orm.columns.map (fun c => c.name)
  if !sameStringSet dbNames ormNames then [MismatchRecord.columnSetMismatch]
  else
    orm.columns.foldl (fun acc c =>
      match dbCols.find? (fun dc => dc.name == c.name) with
      | none => acc ++ [MismatchRecord.columnNotFound c.name]
      | some dc =>
        let ds := attrDetails c dc
        if ds.isEmpty then acc else acc ++ [MismatchRecord.columnMismatch c.name ds]) []

/-- Lines 91-257 for one table that exists in the live database: the
four independently guarded comparison blocks (columns, primary key,
unique constraints, indexes).  A raised introspection query records an
error and marks the table mismatched (lines 196-198, 211-213, 232-234,
255-257).  Returns the introspection events and the records. -/
def diffPhaseTable (ins : InspectFails) (orm : OrmTable) (dbt : DbTable) :
    List Event × List MismatchRecord :=
  let t := orm.name
  let colRecs :=
    if ins.cols t then [MismatchRecord.inspectColumnsError]
    else diffColumnsBlock orm dbt.columns
  let pkRecs :=
    if ins.pk t then [MismatchRecord.pkError]
    else if !sameStringSet orm.pkColumns dbt.pkCols then [MismatchRecord.pkMismatch]
    else []
  let uqRecs :=
    if ins.uq t then [MismatchRecord.uqError]
    else if !sameTupleSet (orm.uniqueConstraints.map sortStrings)
              (dbt.uniqueConstraints.map sortStrings) then [MismatchRecord.uqMismatch]
    else []
  let idxRecs :=
    if ins.idx t then [MismatchRecord.idxError]
    else if !sameTupleSet (orm.indexes.map sortStrings)
              (dbt.indexes.map (fun i => sortStrings i.cols)) then [MismatchRecord.idxMismatch]
    else []
  ([Event.introspect (.getColumns t), Event.introspect (.getPk t),
    Event.introspect (.getUq t), Event.introspect (.getIdx t)],
   colRecs ++ pkRecs ++ uqRecs ++ idxRecs)

/-- Lines 84-257: the diff pass over every declared table.  A table
name absent from the live table list yields `missingTable` and skips
all further checks for that table (lines 85-88); membership in the
live table list is the success of the lookup. -/
def diffPhase (ins : InspectFails) (db : DbState) :
    List OrmTable → List Event × List (String × List MismatchRecord)
  | [] => ([], [])
  | orm :: rest =>
    let r := diffPhase ins db rest
    match findTable db orm.name with
    | none => (r.1, (orm.name, [MismatchRecord.missingTable]) :: r.2)
    | some dbt =>
      let er := diffPhaseTable ins orm dbt
      (er.1 ++ r.1, (orm.name, er.2) :: r.2)

/-- The contents of `mismatched_tables` after the diff pass: every
declared table with at least one record, in declaration order. -/
def diffMismatchedNames (ins : InspectFails) (model : List OrmTable) (db : DbState) :
    List String :=
  ((diffPhase ins db model).2.filter (fun p => !p.2.isEmpty)).map Prod.fst

/-! ## Schema Synchronizer (lines 262-424) -/

/-- Modelled from the spec: `Base.metadata.create_all` is SQLAlchemy
library code outside `src/`; per the spec ("creating an
already-existing table is a no-op, not an error") it creates every
declared table absent from the live database and leaves existing
tables untouched. -/
def ormTableToDb (t : OrmTable) : DbTable :=
  { name := t.name
    columns := t.columns.map (fun c =>
      { name := c.name, type := c.type, compiled := c.compiled,
        nullable := c.nullable, default := c.default })
    pkCols := t.pkColumns
    uniqueConstraints := t.uniqueConstraints
    indexes := t.indexes.map (fun ix => { cols := ix, unique := false }) }

/-- Modelled from the spec: the state effect of
`Base.metadata.create_all` (line 267). -/
def createAllSem : List OrmTable → DbState → DbState
  | [], db => db
  | t :: rest, db =>
    createAllSem rest
      (if db.any (fun tb => tb.name == t.name) then db else db ++ [ormTableToDb t])

/-- Which table a statement mutates (`createAll` touches many and is
never routed through `applyStmt`). -/
def stmtTable : Stmt → String
  | .createAll => ""
  | .addColumn t _ _ _ _ => t
  | .alterType t _ _ _ _ => t
  | .alterNullable t _ _ => t
  | .addUnique t _ => t
  | .createIndex t _ => t

/-- Rewrite the one table named `t`. -/
def mapTable (db : DbState) (t : String) (f : DbTable → DbTable) : DbState :=
  db.map (fun tb => if tb.name == t then f tb else tb)

/-- The state effect of each successful DDL statement. -/
def applyStmt (db : DbState) : Stmt → DbState
  | .createAll => db
  | .addColumn t c ty comp notNull =>
    mapTable db t (fun tb =>
      { tb with columns := tb.columns ++
          [{ name := c, type := ty, compiled := comp, nullable := !notNull, default := none }] })
  | .alterType t c ty comp _ =>
    mapTable db t (fun tb =>
      { tb with columns := tb.columns.map (fun dc =>
          if dc.name == c then { dc with type := ty, compiled := comp } else dc) })
  | .alterNullable t c nu =>
    mapTable db t (fun tb =>
      { tb with columns := tb.columns.map (fun dc =>
          if dc.name == c then { dc with nullable := nu } else dc) })
  | .addUnique t cols =>
    mapTable db t (fun tb => { tb with uniqueConstraints := tb.uniqueConstraints ++ [cols] })
  | .createIndex t cols =>
    mapTable db t (fun tb => { tb with indexes := tb.indexes ++ [{ cols := cols, unique := false }] })

/-- Lines 351-368: the PostgreSQL `USING` clause heuristics.  The live
type must be textual; the declared type selects the cast
(`isinstance` respects SQLAlchemy subclassing: `SmallInteger` and
`BigInteger` are `Integer`s, `Float` is a `Numeric`).  Everything else
— including `Time` targets and every non-PostgreSQL dialect — gets no
cast. -/
def usingCast (dialect : String) (dbTy ormTy : SqlType) : Option CastTarget :=
  if dialect == "postgresql" && isTextualType dbTy then
    match ormTy with
    | .integer => some CastTarget.toInteger
    | .bigInteger => some CastTarget.toInteger
    | .smallInteger => some CastTarget.toInteger
    | .numeric => some CastTarget.toNumeric
    | .float => some CastTarget.toNumeric
    | .boolean => some CastTarget.toBoolean
    | .date => some CastTarget.toDate
    | .dateTime tz => some (CastTarget.toTimestamp tz)
    | .json => some CastTarget.toJsonb
    | _ => none
  else none

/-- Line 347: an `ALTER ... TYPE` is attempted when the alter-phase
oracle says incompatible and the compiled type strings differ
case-insensitively. -/
def alterTypeNeeded (c : OrmColumn) (dc : DbColumn) : Bool :=
  !(isCompatibleAlter (typeClassName c.type) (typeClassName dc.type))
    && (strToLower c.compiled != strToLower dc.compiled)

/-- Lines 299-388: the statements one declared column contributes,
decided against the re-fetched snapshot (`names` = re-fetched column
names, `cols` = re-fetched column info).  A missing column yields
`ADD COLUMN` (with `NOT NULL` when the declared column is
non-nullable); a present column yields an optional type alteration
followed by an optional nullability alteration. -/
def colPlan (dialect : String) (cols : List DbColumn) (names : List String)
    (t : String) (c : OrmColumn) : List Stmt :=
  if !(names.contains c.name) then
    [Stmt.addColumn t c.name c.type c.compiled (!c.nullable)]
  else
    match cols.find? (fun dc => dc.name == c.name) with
    | none => []
    | some dc =>
      (if alterTypeNeeded c dc then
        [Stmt.alterType t c.name c.type c.compiled (usingCast dialect dc.type c.type)]
      else []) ++
      (if c.nullable != dc.nullable then
        [Stmt.alterNullable t c.name c.nullable]
      else [])

/-- Lines 299-414: every statement phase 2 issues for one table, in
source order — the per-column loop, then missing unique constraints
(line 390), then missing indexes (line 401), all decided against the
re-fetched snapshot. -/
def plannedTableStmts (dialect : String) (orm : OrmTable) (cols : List DbColumn)
    (uqs idxs : List (List String)) : List Stmt :=
  (orm.columns.flatMap (colPlan dialect cols (cols.map (fun dc => dc.name)) orm.name)) ++
  ((orm.uniqueConstraints.filter (fun uc => !(uqs.contains (sortStrings uc)))).map
    (fun uc => Stmt.addUnique orm.name uc)) ++
  ((orm.indexes.filter (fun ix => !(idxs.contains (sortStrings ix)))).map
    (fun ix => Stmt.createIndex orm.name ix))

/-- Execute a list of statements, each inside its own try/except: a
raised statement is recorded with `ok = false` and leaves the state
unchanged, and execution always continues. -/
def execStmts (o : FailureOracle) (db : DbState) : List Stmt → List Event × DbState
  | [] => ([], db)
  | s :: ss =>
    if o.stmt s then
      let r := execStmts o db ss
      (Event.stmt s false :: r.1, r.2)
    else
      let r := execStmts o (applyStmt db s) ss
      (Event.stmt s true :: r.1, r.2)

/-- The three re-fetch queries of lines 279-292, in order. -/
def refetchEvents (t : String) : List Event :=
  [Event.introspect (.getColumns t), Event.introspect (.getUq t),
   Event.introspect (.getIdx t)]

/-- Lines 277-414: phase 2 for one mismatched table.  The live
column/constraint/index state is re-fetched first (one try block: a
failure skips the whole table, line 294-296); every alteration is then
decided against that snapshot and executed in its own try/except. -/
def phase2Table (dialect : String) (o : FailureOracle) (orm : OrmTable) (db : DbState) :
    List Event × DbState :=
  if o.refetchCols orm.name then
    ([Event.introspect (.getColumns orm.name)], db)
  else if o.refetchUq orm.name then
    ([Event.introspect (.getColumns orm.name), Event.introspect (.getUq orm.name)], db)
  else if o.refetchIdx orm.name then
    (refetchEvents orm.name, db)
  else
    let cols := getColumnsOf db orm.name
    let uqs := (getUqOf db orm.name).map sortStrings
    let idxs := (getIdxOf db orm.name).map (fun i => sortStrings i.cols)
    let r := execStmts o db (plannedTableStmts dialect orm cols uqs idxs)
    (refetchEvents orm.name ++ r.1, r.2)

/-- Lines 272-414: phase 2 over every mismatched table name (a name
without a declared table is skipped, line 273). -/
def phase2 (dialect : String) (o : FailureOracle) (model : List OrmTable) :
    List String → DbState → List Event × DbState
  | [], db => ([], db)
  | tn :: rest, db =>
    match model.find? (fun t => t.name == tn) with
    | none => phase2 dialect o model rest db
    | some orm =>
      let r1 := phase2Table dialect o orm db
      let r2 := phase2 dialect o model rest r1.2
      (r1.1 ++ r2.1, r2.2)

/-- The value `compare_and_sync_schema` produces: the returned boolean,
the observable trace, the final database state and the diff pass's
mismatched-table set. -/
structure RunResult where
  result : Bool
  trace : List Event
  state : DbState
  mismatched : List String
deriving DecidableEq

/-- Lines 71-424, `compare_and_sync_schema(sync_db)`.  The top-level
table-name listing is inside only the outermost try: its failure is
caught at line 422 and the method returns `False`.  When mismatches
exist and `sync_db` holds, one transaction (`engine.begin()`,
line 264) wraps `create_all` and all phase-2 work; a raised
`create_all` escapes the block (rollback) into the outer handler.
The return value (line 421) is `not bool(mismatched_tables)`. -/
def compareAndSync (model : List OrmTable) (db : DbState) (syncDb : Bool)
    (dialect : String) (o : FailureOracle) : RunResult :=
  if o.inspect.tableList then
    { result := false, trace := [Event.introspect .tableNames], state := db, mismatched := [] }
  else
    let trace0 := Event.introspect .tableNames :: (diffPhase o.inspect db model).1
    let mism := diffMismatchedNames o.inspect model db
    if mism.isEmpty then
      { result := true, trace := trace0, state := db, mismatched := mism }
    else if !syncDb then
      { result := false, trace := trace0, state := db, mismatched := mism }
    else if o.createAll then
      { result := false,
        trace := trace0 ++ [Event.txnBegin, Event.stmt .createAll false, Event.txnRollback],
        state := db, mismatched := mism }
    else
      let db1 := createAllSem model db
      let p2 := phase2 dialect o model mism db1
      { result := false,
        trace := trace0 ++ [Event.txnBegin, Event.stmt .createAll true] ++ p2.1 ++ [Event.txnCommit],
        state := p2.2, mismatched := mism }

/-! ## `get_unique_constraints` and `filter_new_data` (lines 426-502) -/

/-- Lexicographic order used by Python when sorting tuples of
strings. -/
def tupleLeStr : List String → List String → Bool
  | [], _ => true
  | _ :: _, [] => false
  | a :: as, b :: bs => if a == b then tupleLeStr as bs else decide (a < b)

def insertTuple (x : List String) : List (List String) → List (List String)
  | [] => [x]
  | y :: ys => if tupleLeStr x y then x :: y :: ys else y :: insertTuple x ys

/-- Python's `sorted` on a list of column-name tuples. -/
def sortTuples : List (List String) → List (List String)
  | [] => []
  | x :: xs => insertTuple x (sortTuples xs)

/-- Python's `set(...)` as distinct elements (first occurrences). -/
def dedupTuples : List (List String) → List (List String)
  | [] => []
  | x :: xs =>
    let r := dedupTuples xs
    if r.contains x then r else x :: r

/-- Lines 426-463, `get_unique_constraints(table_name)`: collect the
primary-key tuple when non-empty, the non-empty unique-constraint
tuples, and the unique indexes not already present, then
`sorted(list(set(...)))`; a raised introspection query anywhere in the
try block yields `[]` (lines 461-463).  `pkFails`/`uqFails`/`idxFails`
make the corresponding `run_sync` call raise. -/
def get_unique_constraints (pkFails uqFails idxFails : Bool)
    (pk : List String) (uqs : List (List String)) (idxs : List IndexInfo) :
    List (List String) :=
  if pkFails then []
  else if uqFails then []
  else if idxFails then []
  else
    let l1 := if !pk.isEmpty then [sortStrings pk] else []
    let l2 := l1 ++ (uqs.filter (fun u => !u.isEmpty)).map sortStrings
    let l3 := (idxs.filter (fun i => i.unique)).foldl (fun acc i =>
      let cols := sortStrings i.cols
      if acc.contains cols then acc else acc ++ [cols]) l2
    if l3.isEmpty then l3 else sortTuples (dedupTuples l3)

/-- A data row offered to `filter_new_data`: field name/value pairs. -/
abbrev Item := List (String × String)

/-- Lines 465-502, `filter_new_data`: empty input returns `[]`
(line 468); an empty unique-constraint list returns the whole input
(lines 474-479); otherwise an item is dropped exactly when some
constraint has all its keys in the item and the existence query
(`existsInDb`, the `select(query.exists())` round trip) reports it
present. -/
def filter_new_data (dataList : List Item) (constraints : List (List String))
    (existsInDb : Item → List String → Bool) : List Item :=
  if dataList.isEmpty then []
  else if constraints.isEmpty then dataList
  else
    dataList.filter (fun item =>
      !(constraints.any (fun cs =>
        cs.all (fun k => (item.map Prod.fst).contains k) && existsInDb item cs)))

/-! ## Concrete fixtures -/

/-- Declared table `t1`: integer `a` (pk) and text `b`. -/
def exColA : OrmColumn :=
  { name := "a", type := .integer, compiled := "INTEGER", nullable := true,
    primaryKey := true, unique := false, default := none }

def exColB : OrmColumn :=
  { name := "b", type := .text, compiled := "TEXT", nullable := true,
    primaryKey := false, unique := false, default := none }

def exOrmT1 : OrmTable :=
  { name := "t1", columns := [exColA, exColB], pkColumns := ["a"],
    uniqueConstraints := [], indexes := [] }

/-- Live `t1` has only column `a`, and with a character type. -/
def exDbColA : DbColumn :=
  { name := "a", type := .string none, compiled := "VARCHAR", nullable := true,
    default := none }

def exDbT1 : DbTable :=
  { name := "t1", columns := [exDbColA], pkCols := ["a"],
    uniqueConstraints := [], indexes := [] }

/-- Declared table `t2`: one nullable integer column `c`. -/
def exColC : OrmColumn :=
  { name := "c", type := .integer, compiled := "INTEGER", nullable := true,
    primaryKey := false, unique := false, default := none }

def exOrmT2 : OrmTable :=
  { name := "t2", columns := [exColC], pkColumns := [],
    uniqueConstraints := [], indexes := [] }

def exModel2 : List OrmTable := [exOrmT2]

/-- Live `t2` differs from the declaration only in nullability. -/
def exDb2 : DbState :=
  [{ name := "t2",
     columns := [{ name := "c", type := .integer, compiled := "INTEGER",
                   nullable := false, default := none }],
     pkCols := [], uniqueConstraints := [], indexes := [] }]

/-- Declared column of type `Time` against a live `TEXT` column: the
pair for which no `USING` cast is registered. -/
def exColTime : OrmColumn :=
  { name := "c", type := .time, compiled := "TIME", nullable := true,
    primaryKey := false, unique := false, default := none }

def exOrmT3 : OrmTable :=
  { name := "t3", columns := [exColTime], pkColumns := [],
    uniqueConstraints := [], indexes := [] }

def exDbColText : DbColumn :=
  { name := "c", type := .text, compiled := "TEXT", nullable := true,
    default := none }

def exDb3 : DbState :=
  [{ name := "t3", columns := [exDbColText], pkCols := [],
     uniqueConstraints := [], indexes := [] }]

/-- Oracle on which every DDL statement raises. -/
def oracleAllStmtFail : FailureOracle :=
  { oracleNone with stmt := fun _ => true }

/-! ## Basic lemmas about the embedding -/

theorem execStmts_trace (o : FailureOracle) (db : DbState) (ss : List Stmt) :
    (execStmts o db ss).1 = ss.map (fun s => Event.stmt s (!o.stmt s)) := by
  induction ss generalizing db with
  | nil => rfl
  | cons s ss ih =>
    unfold execStmts
    cases h : o.stmt s <;> simp [h, ih]

theorem execStmts_state (o : FailureOracle) (db : DbState) (ss : List Stmt) :
    (execStmts o db ss).2
      = ss.foldl (fun st s => if o.stmt s then st else applyStmt st s) db := by
  induction ss generalizing db with
  | nil => rfl
  | cons s ss ih =>
    unfold execStmts
    cases h : o.stmt s <;> simp [h, ih]

theorem diffPhase_events (ins : InspectFails) (db : DbState) (model : List OrmTable) :
    ∀ e ∈ (diffPhase ins db model).1, ∃ q, e = Event.introspect q := by
  induction model with
  | nil => intro e he; simp [diffPhase] at he
  | cons orm rest ih =>
    intro e he
    unfold diffPhase at he
    cases h : findTable db orm.name with
    | none => rw [h] at he; exact ih e he
    | some dbt =>
      rw [h] at he
      simp only [diffPhaseTable, List.mem_append, List.mem_cons, List.mem_singleton,
        List.not_mem_nil, or_false] at he
      rcases he with he | he
      · rcases he with h1 | h1 | h1 | h1 <;> exact ⟨_, h1⟩
      · exact ih e he

/-- The returned boolean is `not bool(mismatched_tables)` guarded by
the outer exception handler: it depends only on the table-list lookup
succeeding and on the diff pass's verdict. -/
theorem compareAndSync_result (model : List OrmTable) (db : DbState) (sy : Bool)
    (d : String) (o : FailureOracle) :
    (compareAndSync model db sy d o).result
      = (!o.inspect.tableList && (diffMismatchedNames o.inspect model db).isEmpty) := by
  unfold compareAndSync
  cases h1 : o.inspect.tableList with
  | true => simp [h1]
  | false =>
    simp only [h1, Bool.false_eq_true, if_false, Bool.not_false, Bool.true_and]
    by_cases h2 : (diffMismatchedNames o.inspect model db).isEmpty
    · simp [h2]
    · cases h3 : sy <;> cases h4 : o.createAll <;> simp [h2, h4]

theorem compareAndSync_false_state (model : List OrmTable) (db : DbState)
    (d : String) (o : FailureOracle) :
    (compareAndSync model db false d o).state = db := by
  unfold compareAndSync
  cases h1 : o.inspect.tableList <;>
    by_cases h2 : (diffMismatchedNames o.inspect model db).isEmpty <;> simp [h2]

theorem trace0_all_introspect (ins : InspectFails) (db : DbState) (model : List OrmTable) :
    ((Event.introspect .tableNames :: (diffPhase ins db model).1).all
      (fun e => !isStmtEvent e && !isTxnEvent e)) = true := by
  rw [List.all_eq_true]
  intro e he
  rcases List.mem_cons.mp he with h | h
  · subst h; rfl
  · obtain ⟨q, rfl⟩ := diffPhase_events ins db model e h
    rfl

/-- **C8**: the diff pass is deterministic and free of side effects —
with synchronization disabled the trace contains no statement and no
transaction event, the database state is unchanged, and running the
diff a second time on the state left by the first run yields the same
mismatch set and the same return value. -/
theorem C8_diff_deterministic_and_pure :
    ∀ (model : List OrmTable) (db : DbState) (d : String) (o : FailureOracle),
    ((compareAndSync model db false d o).trace.all
        (fun e => !isStmtEvent e && !isTxnEvent e)) = true
  ∧ (compareAndSync model db false d o).state = db
  ∧ (compareAndSync model ((compareAndSync model db false d o).state) false d o).mismatched
      = (compareAndSync model db false d o).mismatched
  ∧ (compareAndSync model ((compareAndSync model db false d o).state) false d o).result
      = (compareAndSync model db false d o).result := by
  intro model db d o
  refine ⟨?_, compareAndSync_false_state model db d o, ?_, ?_⟩
  · unfold compareAndSync
    cases h1 : o.inspect.tableList
    · by_cases h2 : (diffMismatchedNames o.inspect model db).isEmpty <;>
        · simp only [h2, Bool.false_eq_true, if_false, if_true, Bool.not_false, ite_true,
            ite_false, List.all_eq_true]
          refine fun e he => ?_
          rcases List.mem_cons.mp he with h | h
          · subst h; rfl
          · obtain ⟨q, rfl⟩ := diffPhase_events o.inspect db model e h
            rfl
    · simp only [h1, if_true, ite_true]
      rfl
  · rw [compareAndSync_false_state]
  · rw [compareAndSync_false_state]

/-- **C10**: the boolean returned by `compare_and_sync_schema` is
exactly "the table-list lookup succeeded and the pre-synchronization
diff found no mismatched table"; in particular it is `false` whenever
a mismatch was detected — even when every corrective statement
succeeds — and `false` (a normal return, not an exception) on a
top-level failure; phase-2 statement outcomes never change it. -/
theorem C10_result_reflects_presync_diff :
    ∀ (model : List OrmTable) (db : DbState) (sy : Bool) (d : String)
      (o : FailureOracle) (sf : Stmt → Bool),
    (compareAndSync model db sy d o).result
      = (!o.inspect.tableList && (diffMismatchedNames o.inspect model db).isEmpty)
  ∧ (compareAndSync model db sy d { o with stmt := sf }).result
      = (compareAndSync model db sy d o).result := by
  intro model db sy d o sf
  constructor
  · exact compareAndSync_result ..
  · rw [compareAndSync_result, compareAndSync_result]

/-- **C6 (amended)**: a table-list introspection failure or a `create_all`
failure is caught by the outermost handler and the call returns
`False` instead of raising; the call returns only that boolean — no
applied/failed report — so phase-2 statement failures leave the
returned value unchanged. -/
theorem C6_fatal_vs_per_op_failures :
    ∀ (model : List OrmTable) (db : DbState) (sy : Bool) (d : String)
      (o : FailureOracle) (sf : Stmt → Bool),
    (compareAndSync model db sy d
        { o with inspect := { o.inspect with tableList := true } }).result = false
  ∧ (compareAndSync model db sy d { o with createAll := true }).result
      = (!o.inspect.tableList && (diffMismatchedNames o.inspect model db).isEmpty)
  ∧ (compareAndSync model db sy d { o with stmt := sf }).result
      = (compareAndSync model db sy d o).result := by
  intro model db sy d o sf
  refine ⟨?_, ?_, ?_⟩
  · rw [compareAndSync_result]; rfl
  · rw [compareAndSync_result]
  · rw [compareAndSync_result, compareAndSync_result]

/-- **C6 counterexample**: two runs that differ only in whether the
phase-2 nullability alteration succeeded return the same value
(`False`), so the returned value is not — and cannot encode — a report
of applied and failed operations. -/
theorem C6_counterexample :
    (compareAndSync exModel2 exDb2 true "postgresql" oracleNone).result
      = (compareAndSync exModel2 exDb2 true "postgresql" oracleAllStmtFail).result
  ∧ (compareAndSync exModel2 exDb2 true "postgresql" oracleNone).result = false
  ∧ (Event.stmt (.alterNullable "t2" "c" true) true)
      ∈ (compareAndSync exModel2 exDb2 true "postgresql" oracleNone).trace
  ∧ (Event.stmt (.alterNullable "t2" "c" true) false)
      ∈ (compareAndSync exModel2 exDb2 true "postgresql" oracleAllStmtFail).trace := by
  decide

/-! ## C1: the Type Compatibility Oracle -/

theorem isCompatibleDiff_eq (a b : String) :
    isCompatibleDiff a b
      = (strContains a b || strContains b a || sharedFamilyKeyword a b) := by
  unfold isCompatibleDiff
  cases h1 : strContains a b <;> cases h2 : strContains b a <;> simp [h1, h2]

theorem sharedFamilyKeyword_of_unclassifiable (a b : String)
    (ha : classifyFamily a = none) : sharedFamilyKeyword a b = false := by
  unfold classifyFamily at ha
  have h := List.find?_eq_none.mp ha
  have h1 : strContains "int" a = false := by simpa using h "int" (by simp [specFamilyOrder])
  have h2 : strContains "char" a = false := by simpa using h "char" (by simp [specFamilyOrder])
  have h3 : strContains "text" a = false := by simpa using h "text" (by simp [specFamilyOrder])
  have h4 : strContains "date" a = false := by simpa using h "date" (by simp [specFamilyOrder])
  have h5 : strContains "time" a = false := by simpa using h "time" (by simp [specFamilyOrder])
  have h6 : strContains "bool" a = false := by simpa using h "bool" (by simp [specFamilyOrder])
  have h7 : strContains "num" a = false := by simpa using h "num" (by simp [specFamilyOrder])
  have h8 : strContains "float" a = false := by simpa using h "float" (by simp [specFamilyOrder])
  have h9 : strContains "lob" a = false := by simpa using h "lob" (by simp [specFamilyOrder])
  simp [sharedFamilyKeyword, h1, h2, h3, h4, h5, h6, h7, h8, h9]

/-- **C1 (amended)**: the diff-phase oracle returns true iff one class
name contains the other or the two share one of the nine family
keywords; the alter-phase oracle returns true iff the names are equal
or share a keyword.  Same-family pairs such as `int4`/`integer` are
compatible and keyword-disjoint pairs such as `varchar`/`integer` are
not; but two unclassifiable types are diff-phase-compatible whenever
one name contains the other, not only on exact equality. -/
theorem C1_oracle_characterization :
    (∀ a b, isCompatibleDiff a b
        = (strContains a b || strContains b a || sharedFamilyKeyword a b))
  ∧ (∀ a b, isCompatibleAlter a b = (a == b || sharedFamilyKeyword a b))
  ∧ isCompatibleDiff "int4" "integer" = true
  ∧ isCompatibleAlter "int4" "integer" = true
  ∧ isCompatibleDiff "varchar" "integer" = false
  ∧ isCompatibleAlter "varchar" "integer" = false
  ∧ (∀ a b, classifyFamily a = none → classifyFamily b = none →
      isCompatibleDiff a b = (strContains a b || strContains b a)
      ∧ isCompatibleAlter a b = (a == b)) := by
  refine ⟨isCompatibleDiff_eq, fun a b => rfl, by decide, by decide, by decide, by decide,
    fun a b ha hb => ⟨?_, ?_⟩⟩
  · rw [isCompatibleDiff_eq, sharedFamilyKeyword_of_unclassifiable a b ha]
    simp
  · unfold isCompatibleAlter
    rw [sharedFamilyKeyword_of_unclassifiable a b ha]
    simp

/-- Witness for `C1_oracle_characterization` at a concrete
unclassifiable pair. -/
theorem C1_oracle_characterization_witness :
    isCompatibleDiff "xyz" "xyzw" = (strContains "xyz" "xyzw" || strContains "xyzw" "xyz")
  ∧ isCompatibleAlter "xyz" "xyzw" = ("xyz" == "xyzw") :=
  C1_oracle_characterization.2.2.2.2.2.2 "xyz" "xyzw" (by decide) (by decide)

/-- **C1 counterexample**: `foo` and `foobar` classify into no family
and are not equal, yet the diff-phase oracle deems them compatible
(substring containment), contradicting "two unclassifiable types are
compatible only when exactly equal". -/
theorem C1_counterexample :
    classifyFamily "foo" = none ∧ classifyFamily "foobar" = none
  ∧ ("foo" : String) ≠ "foobar"
  ∧ isCompatibleDiff "foo" "foobar" = true := by decide

/-! ## C9: `get_unique_constraints` / `filter_new_data` error path -/

/-- **C9**: a raised introspection query inside `get_unique_constraints`
yields `[]` instead of propagating, and whenever the returned
constraint list is empty `filter_new_data` returns its entire input
unchanged, performing no existence filtering. -/
theorem C9_empty_constraints_disable_filtering :
    ∀ (pkF uqF idxF : Bool) (pk : List String) (uqs : List (List String))
      (idxs : List IndexInfo) (data : List Item) (ex : Item → List String → Bool),
    ((pkF || uqF || idxF) = true →
      get_unique_constraints pkF uqF idxF pk uqs idxs = [])
  ∧ (get_unique_constraints pkF uqF idxF pk uqs idxs = [] →
      filter_new_data data (get_unique_constraints pkF uqF idxF pk uqs idxs) ex = data) := by
  intro pkF uqF idxF pk uqs idxs data ex
  constructor
  · intro h
    cases pkF <;> cases uqF <;> cases idxF <;> simp_all [get_unique_constraints]
  · intro h
    rw [h]
    cases data with
    | nil => rfl
    | cons x xs => rfl

/-- Witness for `C9_empty_constraints_disable_filtering`: a raised
primary-key query empties the constraint list and the one-item data
list passes through unfiltered. -/
theorem C9_empty_constraints_disable_filtering_witness :
    get_unique_constraints true false false ["id"] [] [] = []
  ∧ filter_new_data [[("id", "1")]] (get_unique_constraints true false false ["id"] [] [])
      (fun _ _ => true) = [[("id", "1")]] :=
  ⟨(C9_empty_constraints_disable_filtering true false false ["id"] [] []
      [[("id", "1")]] (fun _ _ => true)).1 (by decide),
   (C9_empty_constraints_disable_filtering true false false ["id"] [] []
      [[("id", "1")]] (fun _ _ => true)).2 (by decide)⟩

/-! ## C2: the column-set-mismatch branch of the diff pass -/

/-- **C2 (amended)**: when the declared and live column-name sets
differ, the diff pass emits the single table-level column-set record
of line 100 — no per-column missing-column records — and skips
attribute comparison for every column, including the columns present
in both sets (the attribute loop lives in the `else` branch,
lines 105-194). -/
theorem C2_column_set_mismatch_behavior :
    ∀ (ins : InspectFails) (orm : OrmTable) (dbt : DbTable),
    ins.cols orm.name = false →
    sameStringSet (dbt.columns.map (fun c => c.name))
      (orm.columns.map (fun c => c.name)) = false →
    diffColumnsBlock orm dbt.columns = [MismatchRecord.columnSetMismatch]
  ∧ (diffPhaseTable ins orm dbt).2.filter (fun r => isColumnLevelRecord r)
      = [MismatchRecord.columnSetMismatch] := by
  intro ins orm dbt hins hset
  have hblock : diffColumnsBlock orm dbt.columns = [MismatchRecord.columnSetMismatch] := by
    unfold diffColumnsBlock
    simp [hset]
  refine ⟨hblock, ?_⟩
  unfold diffPhaseTable
  simp only [hins, Bool.false_eq_true, if_false, ite_false, hblock]
  rw [List.filter_append, List.filter_append, List.filter_append]
  have h1 : (if ins.pk orm.name then [MismatchRecord.pkError]
      else if !sameStringSet orm.pkColumns dbt.pkCols then [MismatchRecord.pkMismatch]
      else []).filter (fun r => isColumnLevelRecord r) = [] := by
    split
    · rfl
    · split <;> rfl
  have h2 : (if ins.uq orm.name then [MismatchRecord.uqError]
      else if !sameTupleSet (orm.uniqueConstraints.map sortStrings)
        (dbt.uniqueConstraints.map sortStrings) then [MismatchRecord.uqMismatch]
      else []).filter (fun r => isColumnLevelRecord r) = [] := by
    split
    · rfl
    · split <;> rfl
  have h3 : (if ins.idx orm.name then [MismatchRecord.idxError]
      else if !sameTupleSet (orm.indexes.map sortStrings)
        (dbt.indexes.map (fun i => sortStrings i.cols)) then [MismatchRecord.idxMismatch]
      else []).filter (fun r => isColumnLevelRecord r) = [] := by
    split
    · rfl
    · split <;> rfl
  rw [h1, h2, h3]
  rfl

/-- Witness for `C2_column_set_mismatch_behavior` on the concrete
table `t1`. -/
theorem C2_column_set_mismatch_behavior_witness :
    diffColumnsBlock exOrmT1 exDbT1.columns = [MismatchRecord.columnSetMismatch]
  ∧ (diffPhaseTable oracleNone.inspect exOrmT1 exDbT1).2.filter
      (fun r => isColumnLevelRecord r) = [MismatchRecord.columnSetMismatch] :=
  C2_column_set_mismatch_behavior oracleNone.inspect exOrmT1 exDbT1 (by decide) (by decide)

/-- **C2 counterexample**: declared `t1` has columns `a`,`b`, live `t1`
has only `a` with an incompatible type; the diff pass emits exactly
one table-level record — no missing-column record for `b`, and no
attribute record for `a` even though its types mismatch. -/
theorem C2_counterexample :
    diffColumnsBlock exOrmT1 exDbT1.columns = [MismatchRecord.columnSetMismatch]
  ∧ ((exDbT1.columns.map (fun c => c.name)).contains "b") = false
  ∧ exColB ∈ exOrmT1.columns
  ∧ attrDetails exColA exDbColA = [AttrDetail.typeMismatch] := by decide

/-! ## Phase-2 machinery -/

theorem attemptedStmts_append (a b : List Event) :
    attemptedStmts (a ++ b) = attemptedStmts a ++ attemptedStmts b := by
  unfold attemptedStmts
  rw [List.filterMap_append]

theorem attemptedStmts_stmtMap (ss : List Stmt) (f : Stmt → Bool) :
    attemptedStmts (ss.map (fun s => Event.stmt s (f s))) = ss := by
  induction ss with
  | nil => rfl
  | cons s ss ih => simp [attemptedStmts] at ih ⊢; exact ih

theorem attemptedStmts_refetch (t : String) : attemptedStmts (refetchEvents t) = [] := rfl

/-- With all three re-fetch queries succeeding, the phase-2 trace for
one table is the three re-fetch events followed by one statement event
per planned statement, in plan order. -/
theorem phase2Table_trace_ok (d : String) (o : FailureOracle) (orm : OrmTable)
    (db : DbState) (h1 : o.refetchCols orm.name = false)
    (h2 : o.refetchUq orm.name = false) (h3 : o.refetchIdx orm.name = false) :
    (phase2Table d o orm db).1
      = refetchEvents orm.name
        ++ (plannedTableStmts d orm (getColumnsOf db orm.name)
             ((getUqOf db orm.name).map sortStrings)
             ((getIdxOf db orm.name).map (fun i => sortStrings i.cols))).map
           (fun s => Event.stmt s (!o.stmt s)) := by
  unfold phase2Table
  simp [h1, h2, h3, execStmts_trace]

theorem phase2Table_state_ok (d : String) (o : FailureOracle) (orm : OrmTable)
    (db : DbState) (h1 : o.refetchCols orm.name = false)
    (h2 : o.refetchUq orm.name = false) (h3 : o.refetchIdx orm.name = false) :
    (phase2Table d o orm db).2
      = (plannedTableStmts d orm (getColumnsOf db orm.name)
          ((getUqOf db orm.name).map sortStrings)
          ((getIdxOf db orm.name).map (fun i => sortStrings i.cols))).foldl
         (fun st s => if o.stmt s then st else applyStmt st s) db := by
  unfold phase2Table
  simp [h1, h2, h3, execStmts_state]

/-- Every statement phase 2 plans for a table names that table. -/
theorem planned_stmtTable (d : String) (orm : OrmTable) (cols : List DbColumn)
    (uqs idxs : List (List String)) :
    ∀ s ∈ plannedTableStmts d orm cols uqs idxs, stmtTable s = orm.name := by
  intro s hs
  unfold plannedTableStmts at hs
  rcases List.mem_append.mp hs with hs | hs
  · rcases List.mem_append.mp hs with hs | hs
    · obtain ⟨c, _, hc⟩ := List.mem_flatMap.mp hs
      unfold colPlan at hc
      split at hc
      · rcases List.mem_singleton.mp hc with rfl
        rfl
      · cases hfind : cols.find? (fun dc => dc.name == c.name) with
        | none => rw [hfind] at hc; cases hc
        | some dc =>
          rw [hfind] at hc
          rcases List.mem_append.mp hc with hc | hc
          · split at hc
            · rcases List.mem_singleton.mp hc with rfl
              rfl
            · cases hc
          · split at hc
            · rcases List.mem_singleton.mp hc with rfl
              rfl
            · cases hc
    · obtain ⟨uc, _, hc⟩ := List.mem_map.mp hs
      rw [← hc]
      rfl
  · obtain ⟨ix, _, hc⟩ := List.mem_map.mp hs
    rw [← hc]
    rfl

/-- The re-fetchable state of one table: its columns, unique
constraints and indexes. -/
def snapshotOf (db : DbState) (t : String) :
    List DbColumn × List (List String) × List IndexInfo :=
  (getColumnsOf db t, getUqOf db t, getIdxOf db t)

theorem findTable_mapTable_ne (db : DbState) (t tn : String) (f : DbTable → DbTable)
    (hf : ∀ tb, (f tb).name = tb.name) (h : t ≠ tn) :
    findTable (mapTable db tn f) t = findTable db t := by
  unfold findTable mapTable
  rw [List.find?_map]
  have hpred : ((fun tb : DbTable => tb.name == t) ∘
      (fun tb => if tb.name == tn then f tb else tb)) = (fun tb => tb.name == t) := by
    funext tb
    by_cases htb : tb.name = tn <;> simp [htb, hf tb]
  rw [hpred]
  cases hfind : db.find? (fun tb => tb.name == t) with
  | none => rfl
  | some tb0 =>
    have hname : tb0.name = t := by simpa using List.find?_some hfind
    have hne : (tb0.name == tn) = false := by
      rw [hname]
      simp
      exact h
    simp [hne]
    exact fun hc => absurd (hname.symm.trans hc) h

theorem snapshotOf_mapTable_ne (db : DbState) (t tn : String) (f : DbTable → DbTable)
    (hf : ∀ tb, (f tb).name = tb.name) (h : t ≠ tn) :
    snapshotOf (mapTable db tn f) t = snapshotOf db t := by
  unfold snapshotOf getColumnsOf getUqOf getIdxOf
  rw [findTable_mapTable_ne db t tn f hf h]

/-- A statement that targets another table leaves a table's
re-fetchable state untouched. -/
theorem snapshotOf_applyStmt_ne (db : DbState) (s : Stmt) (t : String)
    (h : stmtTable s ≠ t) : snapshotOf (applyStmt db s) t = snapshotOf db t := by
  cases s with
  | createAll => rfl
  | addColumn tn c ty comp nn =>
    exact snapshotOf_mapTable_ne db t tn _ (fun tb => rfl) (fun hc => h hc.symm)
  | alterType tn c ty comp uc =>
    exact snapshotOf_mapTable_ne db t tn _ (fun tb => rfl) (fun hc => h hc.symm)
  | alterNullable tn c nu =>
    exact snapshotOf_mapTable_ne db t tn _ (fun tb => rfl) (fun hc => h hc.symm)
  | addUnique tn cols =>
    exact snapshotOf_mapTable_ne db t tn _ (fun tb => rfl) (fun hc => h hc.symm)
  | createIndex tn cols =>
    exact snapshotOf_mapTable_ne db t tn _ (fun tb => rfl) (fun hc => h hc.symm)

theorem snapshotOf_fold_ne (o : FailureOracle) (ss : List Stmt) (db : DbState) (t : String)
    (h : ∀ s ∈ ss, stmtTable s ≠ t) :
    snapshotOf (ss.foldl (fun st s => if o.stmt s then st else applyStmt st s) db) t
      = snapshotOf db t := by
  induction ss generalizing db with
  | nil => rfl
  | cons s ss ih =>
    rw [List.foldl_cons]
    rw [ih _ (fun x hx => h x (List.mem_cons_of_mem s hx))]
    by_cases hos : o.stmt s
    · simp [hos]
    · simp [hos, snapshotOf_applyStmt_ne db s t (h s (List.mem_cons_self s ss))]

/-- Phase 2 on one table leaves every other table's re-fetchable state
untouched. -/
theorem snapshotOf_phase2Table_ne (d : String) (o : FailureOracle) (orm : OrmTable)
    (db : DbState) (t : String) (h : t ≠ orm.name) :
    snapshotOf (phase2Table d o orm db).2 t = snapshotOf db t := by
  unfold phase2Table
  by_cases h1 : o.refetchCols orm.name
  · simp [h1]
  · by_cases h2 : o.refetchUq orm.name
    · simp [h1, h2]
    · by_cases h3 : o.refetchIdx orm.name
      · simp [h1, h2, h3]
      · simp only [h1, h2, h3, Bool.false_eq_true, if_false, ite_false]
        rw [execStmts_state]
        exact snapshotOf_fold_ne o _ db t
          (fun s hs => by rw [planned_stmtTable _ _ _ _ _ s hs]; exact fun hc => h hc.symm)

/-- The statements attempted on one table depend only on its
re-fetched snapshot, never on which statements fail. -/
theorem phase2Table_attempted_congr (d : String) (o : FailureOracle) (sf : Stmt → Bool)
    (orm : OrmTable) (db1 db2 : DbState)
    (hsnap : snapshotOf db1 orm.name = snapshotOf db2 orm.name) :
    attemptedStmts (phase2Table d o orm db1).1
      = attemptedStmts (phase2Table d { o with stmt := sf } orm db2).1 := by
  have hcols : getColumnsOf db1 orm.name = getColumnsOf db2 orm.name :=
    congrArg Prod.fst hsnap
  have huq : getUqOf db1 orm.name = getUqOf db2 orm.name :=
    congrArg (fun p => p.2.1) hsnap
  have hidx : getIdxOf db1 orm.name = getIdxOf db2 orm.name :=
    congrArg (fun p => p.2.2) hsnap
  by_cases h1 : o.refetchCols orm.name
  · unfold phase2Table
    simp [h1]
  · by_cases h2 : o.refetchUq orm.name
    · unfold phase2Table
      simp [h1, h2]
    · by_cases h3 : o.refetchIdx orm.name
      · unfold phase2Table
        simp [h1, h2, h3]
      · rw [phase2Table_trace_ok d o orm db1 (by simpa using h1) (by simpa using h2)
            (by simpa using h3),
          phase2Table_trace_ok d { o with stmt := sf } orm db2 (by simpa using h1)
            (by simpa using h2) (by simpa using h3)]
        rw [attemptedStmts_append, attemptedStmts_append,
          attemptedStmts_refetch, attemptedStmts_stmtMap, attemptedStmts_stmtMap]
        rw [hcols, huq, hidx]

/-- Whole-phase-2 congruence: with distinct table names and agreeing
snapshots, changing which statements fail changes no attempted
statement. -/
theorem phase2_attempted_congr (d : String) (model : List OrmTable) (o : FailureOracle)
    (sf : Stmt → Bool) :
    ∀ (names : List String) (db1 db2 : DbState), names.Nodup →
    (∀ tn ∈ names, snapshotOf db1 tn = snapshotOf db2 tn) →
    attemptedStmts (phase2 d o model names db1).1
      = attemptedStmts (phase2 d { o with stmt := sf } model names db2).1 := by
  intro names
  induction names with
  | nil => intro db1 db2 _ _; rfl
  | cons tn rest ih =>
    intro db1 db2 hnd hsnap
    unfold phase2
    cases hfind : model.find? (fun t => t.name == tn) with
    | none =>
      exact ih db1 db2 (List.Nodup.of_cons hnd)
        (fun x hx => hsnap x (List.mem_cons_of_mem tn hx))
    | some orm =>
      have horm : orm.name = tn := by simpa using List.find?_some hfind
      rw [attemptedStmts_append, attemptedStmts_append]
      have hhead := phase2Table_attempted_congr d o sf orm db1 db2
        (by rw [horm]; exact hsnap tn (List.mem_cons_self tn rest))
      rw [hhead]
      have htail : attemptedStmts (phase2 d o model rest (phase2Table d o orm db1).2).1
          = attemptedStmts
              (phase2 d { o with stmt := sf } model rest
                (phase2Table d { o with stmt := sf } orm db2).2).1 := by
        apply ih _ _ (List.Nodup.of_cons hnd)
        intro x hx
        have hxne : x ≠ tn := by
          intro hc
          subst hc
          exact (List.nodup_cons.mp hnd).1 hx
        rw [snapshotOf_phase2Table_ne d o orm db1 x (fun hc => hxne (hc.trans horm)),
          snapshotOf_phase2Table_ne d { o with stmt := sf } orm db2 x
            (fun hc => hxne (hc.trans horm))]
        exact hsnap x (List.mem_cons_of_mem tn hx)
      rw [htail]

theorem diffPairs_fst (ins : InspectFails) (db : DbState) :
    ∀ model : List OrmTable,
    (diffPhase ins db model).2.map Prod.fst = model.map (fun t => t.name) := by
  intro model
  induction model with
  | nil => rfl
  | cons orm rest ih =>
    unfold diffPhase
    cases hfind : findTable db orm.name <;> simp [ih]

theorem diffMismatchedNames_nodup (ins : InspectFails) (model : List OrmTable)
    (db : DbState) (h : (model.map (fun t => t.name)).Nodup) :
    (diffMismatchedNames ins model db).Nodup := by
  have hsub : List.Sublist (diffMismatchedNames ins model db)
      ((diffPhase ins db model).2.map Prod.fst) :=
    List.Sublist.map Prod.fst (List.filter_sublist _)
  rw [diffPairs_fst] at hsub
  exact List.Nodup.sublist hsub h

/-- The trace of a syncing run that reaches phase 2: the diff events,
then one transaction enclosing `create_all` and all phase-2 events. -/
theorem compareAndSync_sync_trace (model : List OrmTable) (db : DbState) (d : String)
    (o : FailureOracle) (h1 : o.inspect.tableList = false)
    (h2 : (diffMismatchedNames o.inspect model db).isEmpty = false)
    (h4 : o.createAll = false) :
    (compareAndSync model db true d o).trace
      = (Event.introspect .tableNames :: (diffPhase o.inspect db model).1)
        ++ [Event.txnBegin, Event.stmt .createAll true]
        ++ (phase2 d o model (diffMismatchedNames o.inspect model db)
            (createAllSem model db)).1
        ++ [Event.txnCommit] := by
  unfold compareAndSync
  simp [h1, h2, h4]

/-- **C3**: phase-2 failures are isolated — for every run, changing
which phase-2 statements raise changes neither the list of attempted
statements (every remaining operation for the failing table and for
all other mismatched tables is still attempted) nor the returned
value; no phase-2 failure aborts the run. -/
theorem C3_phase2_failures_isolated :
    ∀ (model : List OrmTable) (db : DbState) (d : String) (o : FailureOracle)
      (sf : Stmt → Bool), (model.map (fun t => t.name)).Nodup →
    attemptedStmts (compareAndSync model db true d { o with stmt := sf }).trace
      = attemptedStmts (compareAndSync model db true d o).trace
  ∧ (compareAndSync model db true d { o with stmt := sf }).result
      = (compareAndSync model db true d o).result := by
  intro model db d o sf hnd
  constructor
  · cases h1 : o.inspect.tableList
    · by_cases h2 : (diffMismatchedNames o.inspect model db).isEmpty
      · unfold compareAndSync
        simp [h2]
      · by_cases h4 : o.createAll
        · unfold compareAndSync
          simp [h2, h4]
        · have h2f : (diffMismatchedNames o.inspect model db).isEmpty = false :=
            Bool.eq_false_iff.mpr h2
          have h4f : o.createAll = false := Bool.eq_false_iff.mpr h4
          have hins : ({ o with stmt := sf } : FailureOracle).inspect = o.inspect := rfl
          have e1 := compareAndSync_sync_trace model db d { o with stmt := sf } h1 h2f h4f
          rw [hins] at e1
          have e2 := compareAndSync_sync_trace model db d o h1 h2f h4f
          rw [e1, e2]
          simp only [attemptedStmts_append]
          rw [(phase2_attempted_congr d model o sf (diffMismatchedNames o.inspect model db)
            (createAllSem model db) (createAllSem model db)
            (diffMismatchedNames_nodup o.inspect model db hnd) (fun _ _ => rfl)).symm]
    · unfold compareAndSync
      simp [h1]
  · rw [compareAndSync_result, compareAndSync_result]

/-- Witness for `C3_phase2_failures_isolated` on the concrete scenario
where every statement fails against the all-success run. -/
theorem C3_phase2_failures_isolated_witness :
    attemptedStmts (compareAndSync exModel2 exDb2 true "postgresql"
        { oracleNone with stmt := fun _ => true }).trace
      = attemptedStmts (compareAndSync exModel2 exDb2 true "postgresql" oracleNone).trace
  ∧ (compareAndSync exModel2 exDb2 true "postgresql"
        { oracleNone with stmt := fun _ => true }).result
      = (compareAndSync exModel2 exDb2 true "postgresql" oracleNone).result :=
  C3_phase2_failures_isolated exModel2 exDb2 "postgresql" oracleNone (fun _ => true)
    (by decide)

theorem phase2Table_attempted_ok (d : String) (o : FailureOracle) (orm : OrmTable)
    (db : DbState) (h1 : o.refetchCols orm.name = false)
    (h2 : o.refetchUq orm.name = false) (h3 : o.refetchIdx orm.name = false) :
    attemptedStmts (phase2Table d o orm db).1
      = plannedTableStmts d orm (getColumnsOf db orm.name)
          ((getUqOf db orm.name).map sortStrings)
          ((getIdxOf db orm.name).map (fun i => sortStrings i.cols)) := by
  rw [phase2Table_trace_ok d o orm db h1 h2 h3, attemptedStmts_append,
    attemptedStmts_refetch, attemptedStmts_stmtMap]
  rfl

/-- The possible shapes of a statement contributed by one declared
column. -/
theorem colPlan_shapes (d : String) (cols : List DbColumn) (names : List String)
    (t : String) (c : OrmColumn) :
    ∀ s ∈ colPlan d cols names t c,
      (s = Stmt.addColumn t c.name c.type c.compiled (!c.nullable)
        ∧ names.contains c.name = false)
      ∨ (∃ uc2, s = Stmt.alterType t c.name c.type c.compiled uc2)
      ∨ (s = Stmt.alterNullable t c.name c.nullable) := by
  intro s hs
  unfold colPlan at hs
  cases hg : names.contains c.name with
  | false =>
    rw [hg] at hs
    simp only [Bool.not_false, if_true, ite_true] at hs
    exact Or.inl ⟨List.mem_singleton.mp hs, rfl⟩
  | true =>
    rw [hg] at hs
    simp only [Bool.not_true, Bool.false_eq_true, if_false, ite_false] at hs
    cases hf : cols.find? (fun dc => dc.name == c.name) with
    | none => rw [hf] at hs; cases hs
    | some dc =>
      rw [hf] at hs
      rcases List.mem_append.mp hs with h | h
      · split at h
        · exact Or.inr (Or.inl ⟨_, List.mem_singleton.mp h⟩)
        · cases h
      · split at h
        · exact Or.inr (Or.inr (List.mem_singleton.mp h))
        · cases h

/-- An `ADD COLUMN` for a declared column is planned exactly when the
column name is absent from the re-fetched column-name list. -/
theorem planned_mem_addColumn (d : String) (orm : OrmTable) (cols : List DbColumn)
    (uqs idxs : List (List String)) (c : OrmColumn) (hc : c ∈ orm.columns) :
    (Stmt.addColumn orm.name c.name c.type c.compiled (!c.nullable)
        ∈ plannedTableStmts d orm cols uqs idxs)
      ↔ (cols.map (fun dc => dc.name)).contains c.name = false := by
  constructor
  · intro hmem
    unfold plannedTableStmts at hmem
    rcases List.mem_append.mp hmem with hm | hm
    · rcases List.mem_append.mp hm with hm | hm
      · obtain ⟨c', hc', hcp⟩ := List.mem_flatMap.mp hm
        rcases colPlan_shapes d cols _ orm.name c' _ hcp with ⟨heq, hg⟩ | ⟨uc2, heq⟩ | heq
        · have hname : c.name = c'.name := by
            injection heq with e1 e2 e3 e4 e5
          rw [hname]
          exact hg
        · simp at heq
        · simp at heq
      · obtain ⟨uc, _, heq⟩ := List.mem_map.mp hm
        simp at heq
    · obtain ⟨ix, _, heq⟩ := List.mem_map.mp hm
      simp at heq
  · intro hg
    unfold plannedTableStmts
    apply List.mem_append.mpr
    left
    apply List.mem_append.mpr
    left
    apply List.mem_flatMap.mpr
    refine ⟨c, hc, ?_⟩
    unfold colPlan
    rw [hg]
    simp

/-- An `ADD CONSTRAINT` is planned exactly when the declared unique
constraint's sorted tuple is absent from the re-fetched constraint
set. -/
theorem planned_mem_addUnique (d : String) (orm : OrmTable) (cols : List DbColumn)
    (uqs idxs : List (List String)) (uc : List String) (hc : uc ∈ orm.uniqueConstraints) :
    (Stmt.addUnique orm.name uc ∈ plannedTableStmts d orm cols uqs idxs)
      ↔ uqs.contains (sortStrings uc) = false := by
  constructor
  · intro hmem
    unfold plannedTableStmts at hmem
    rcases List.mem_append.mp hmem with hm | hm
    · rcases List.mem_append.mp hm with hm | hm
      · obtain ⟨c', hc', hcp⟩ := List.mem_flatMap.mp hm
        rcases colPlan_shapes d cols _ orm.name c' _ hcp with ⟨heq, _⟩ | ⟨uc2, heq⟩ | heq <;>
          simp at heq
      · obtain ⟨uc', huc', heq⟩ := List.mem_map.mp hm
        have he : uc' = uc := by injection heq
        subst he
        have h2 := (List.mem_filter.mp huc').2
        simpa using h2
    · obtain ⟨ix, _, heq⟩ := List.mem_map.mp hm
      simp at heq
  · intro hg
    unfold plannedTableStmts
    apply List.mem_append.mpr
    left
    apply List.mem_append.mpr
    right
    apply List.mem_map.mpr
    refine ⟨uc, List.mem_filter.mpr ⟨hc, ?_⟩, rfl⟩
    simp [hg]
    simpa using hg

/-- A `CREATE INDEX` is planned exactly when the declared index's
sorted tuple is absent from the re-fetched index set. -/
theorem planned_mem_createIndex (d : String) (orm : OrmTable) (cols : List DbColumn)
    (uqs idxs : List (List String)) (ix : List String) (hc : ix ∈ orm.indexes) :
    (Stmt.createIndex orm.name ix ∈ plannedTableStmts d orm cols uqs idxs)
      ↔ idxs.contains (sortStrings ix) = false := by
  constructor
  · intro hmem
    unfold plannedTableStmts at hmem
    rcases List.mem_append.mp hmem with hm | hm
    · rcases List.mem_append.mp hm with hm | hm
      · obtain ⟨c', hc', hcp⟩ := List.mem_flatMap.mp hm
        rcases colPlan_shapes d cols _ orm.name c' _ hcp with ⟨heq, _⟩ | ⟨uc2, heq⟩ | heq <;>
          simp at heq
      · obtain ⟨uc', _, heq⟩ := List.mem_map.mp hm
        simp at heq
    · obtain ⟨ix', hix', heq⟩ := List.mem_map.mp hm
      have : ix' = ix := by injection heq
      subst this
      have := (List.mem_filter.mp hix').2
      simpa using this
  · intro hg
    unfold plannedTableStmts
    apply List.mem_append.mpr
    right
    apply List.mem_map.mpr
    refine ⟨ix, List.mem_filter.mpr ⟨hc, ?_⟩, rfl⟩
    simp [hg]
    simpa using hg

/-- Live `t1` as it looks after a concurrent change added column `b`:
the re-fetched state differs from what the differ saw. -/
def exDb7 : DbState :=
  [{ name := "t1",
     columns := [exDbColA,
       { name := "b", type := .text, compiled := "TEXT", nullable := true, default := none }],
     pkCols := ["a"], uniqueConstraints := [], indexes := [] }]

/-- **C7**: within phase 2 for one table, the three re-fetch queries
strictly precede every issued statement, and each add-column,
add-constraint and add-index decision is a function of the re-fetched
snapshot of the live state at phase-2 time (the differ's earlier
snapshot is not even an input of the per-table loop). -/
theorem C7_refetch_then_alter :
    ∀ (d : String) (o : FailureOracle) (orm : OrmTable) (db : DbState),
    o.refetchCols orm.name = false → o.refetchUq orm.name = false →
    o.refetchIdx orm.name = false →
    ((phase2Table d o orm db).1
      = refetchEvents orm.name
        ++ (plannedTableStmts d orm (getColumnsOf db orm.name)
             ((getUqOf db orm.name).map sortStrings)
             ((getIdxOf db orm.name).map (fun i => sortStrings i.cols))).map
           (fun s => Event.stmt s (!o.stmt s)))
  ∧ (∀ c ∈ orm.columns,
      (Stmt.addColumn orm.name c.name c.type c.compiled (!c.nullable)
          ∈ attemptedStmts (phase2Table d o orm db).1)
        ↔ ((getColumnsOf db orm.name).map (fun dc => dc.name)).contains c.name = false)
  ∧ (∀ uc ∈ orm.uniqueConstraints,
      (Stmt.addUnique orm.name uc ∈ attemptedStmts (phase2Table d o orm db).1)
        ↔ ((getUqOf db orm.name).map sortStrings).contains (sortStrings uc) = false)
  ∧ (∀ ix ∈ orm.indexes,
      (Stmt.createIndex orm.name ix ∈ attemptedStmts (phase2Table d o orm db).1)
        ↔ ((getIdxOf db orm.name).map (fun i => sortStrings i.cols)).contains
            (sortStrings ix) = false) := by
  intro d o orm db h1 h2 h3
  refine ⟨phase2Table_trace_ok d o orm db h1 h2 h3, ?_, ?_, ?_⟩
  · intro c hc
    rw [phase2Table_attempted_ok d o orm db h1 h2 h3]
    exact planned_mem_addColumn d orm _ _ _ c hc
  · intro uc hc
    rw [phase2Table_attempted_ok d o orm db h1 h2 h3]
    exact planned_mem_addUnique d orm _ _ _ uc hc
  · intro ix hc
    rw [phase2Table_attempted_ok d o orm db h1 h2 h3]
    exact planned_mem_createIndex d orm _ _ _ ix hc

/-- Witness for `C7_refetch_then_alter`: declared column `b` was
missing in the differ's snapshot (`exDbT1`) but present in the
re-fetched state (`exDb7`), so no `ADD COLUMN` is attempted. -/
theorem C7_refetch_then_alter_witness :
    (Stmt.addColumn exOrmT1.name exColB.name exColB.type exColB.compiled (!exColB.nullable)
        ∈ attemptedStmts (phase2Table "postgresql" oracleNone exOrmT1 exDb7).1)
      ↔ ((getColumnsOf exDb7 exOrmT1.name).map (fun dc => dc.name)).contains exColB.name
          = false :=
  (C7_refetch_then_alter "postgresql" oracleNone exOrmT1 exDb7 rfl rfl rfl).2.1 exColB
    (by decide)

/-- **C4 (amended)**: on PostgreSQL against a text-typed live column
the issued `ALTER ... TYPE` carries a cast tailored to the declared
type for the Integer family, Numeric family (including `Float`),
`Boolean`, `Date`, `DateTime` and `JSON` targets; for every other pair
— `Time` targets, non-textual live columns, non-PostgreSQL dialects —
no cast is registered and the alteration is still planned and
attempted without one (with its failure caught), never skipped. -/
theorem C4_cast_registration_and_blind_attempt :
    (∀ dbTy, isTextualType dbTy = true →
        usingCast "postgresql" dbTy .integer = some CastTarget.toInteger
      ∧ usingCast "postgresql" dbTy .bigInteger = some CastTarget.toInteger
      ∧ usingCast "postgresql" dbTy .smallInteger = some CastTarget.toInteger
      ∧ usingCast "postgresql" dbTy .numeric = some CastTarget.toNumeric
      ∧ usingCast "postgresql" dbTy .float = some CastTarget.toNumeric
      ∧ usingCast "postgresql" dbTy .boolean = some CastTarget.toBoolean
      ∧ usingCast "postgresql" dbTy .date = some CastTarget.toDate
      ∧ (∀ tz, usingCast "postgresql" dbTy (.dateTime tz) = some (CastTarget.toTimestamp tz))
      ∧ usingCast "postgresql" dbTy .json = some CastTarget.toJsonb
      ∧ usingCast "postgresql" dbTy .time = none)
  ∧ (∀ dbTy ormTy, isTextualType dbTy = false → usingCast "postgresql" dbTy ormTy = none)
  ∧ (∀ dial dbTy ormTy, (dial == "postgresql") = false → usingCast dial dbTy ormTy = none)
  ∧ (∀ (d : String) (cols : List DbColumn) (t : String) (c : OrmColumn) (dc : DbColumn),
      cols.find? (fun dc2 => dc2.name == c.name) = some dc →
      (cols.map (fun dc2 => dc2.name)).contains c.name = true →
      alterTypeNeeded c dc = true →
      Stmt.alterType t c.name c.type c.compiled (usingCast d dc.type c.type)
        ∈ colPlan d cols (cols.map (fun dc2 => dc2.name)) t c) := by
  refine ⟨?_, ?_, ?_, ?_⟩
  · intro dbTy h
    refine ⟨?_, ?_, ?_, ?_, ?_, ?_, ?_, fun tz => ?_, ?_, ?_⟩ <;> simp [usingCast, h]
  · intro dbTy ormTy h
    simp [usingCast, h]
  · intro dial dbTy ormTy h
    simp [usingCast, h]
  · intro d cols t c dc hfind hcont hneed
    unfold colPlan
    rw [hcont]
    simp only [Bool.not_true, Bool.false_eq_true, if_false, ite_false]
    rw [hfind]
    apply List.mem_append.mpr
    left
    rw [hneed]
    simp

/-- Witness for `C4_cast_registration_and_blind_attempt`: the cast
table on a live `TEXT` column, and the blind `Time` alteration being
planned. -/
theorem C4_cast_registration_witness :
    usingCast "postgresql" .text .integer = some CastTarget.toInteger
  ∧ Stmt.alterType "t3" exColTime.name exColTime.type exColTime.compiled
        (usingCast "postgresql" exDbColText.type exColTime.type)
      ∈ colPlan "postgresql" [exDbColText] ([exDbColText].map (fun dc2 => dc2.name))
        "t3" exColTime :=
  ⟨(C4_cast_registration_and_blind_attempt.1 .text rfl).1,
   C4_cast_registration_and_blind_attempt.2.2.2 "postgresql" [exDbColText] "t3"
     exColTime exDbColText (by decide) (by decide) (by decide)⟩

/-- **C4 counterexample**: for the declared type `Time` against a live
`TEXT` column no cast is registered, yet phase 2 issues the
`ALTER ... TYPE` statement without a `USING` clause — the operation is
attempted blind, not skipped. -/
theorem C4_counterexample :
    usingCast "postgresql" exDbColText.type exColTime.type = none
  ∧ alterTypeNeeded exColTime exDbColText = true
  ∧ (phase2Table "postgresql" oracleNone exOrmT3 exDb3).1
      = refetchEvents "t3"
        ++ [Event.stmt (.alterType "t3" "c" .time "TIME" none) true] := by
  decide

theorem phase2Table_no_txn (d : String) (o : FailureOracle) (orm : OrmTable)
    (db : DbState) : ∀ e ∈ (phase2Table d o orm db).1, isTxnEvent e = false := by
  intro e he
  unfold phase2Table at he
  by_cases h1 : o.refetchCols orm.name
  · simp only [h1, if_true, ite_true] at he
    rcases List.mem_singleton.mp he with rfl
    rfl
  · by_cases h2 : o.refetchUq orm.name
    · simp only [h1, h2, if_true, ite_true, Bool.false_eq_true, if_false, ite_false] at he
      rcases List.mem_cons.mp he with rfl | he
      · rfl
      · rcases List.mem_singleton.mp he with rfl
        rfl
    · by_cases h3 : o.refetchIdx orm.name
      · simp only [h1, h2, h3, if_true, ite_true, Bool.false_eq_true, if_false,
          ite_false] at he
        rcases List.mem_cons.mp he with rfl | he
        · rfl
        · rcases List.mem_cons.mp he with rfl | he
          · rfl
          · rcases List.mem_singleton.mp he with rfl
            rfl
      · simp only [h1, h2, h3, Bool.false_eq_true, if_false, ite_false] at he
        rw [execStmts_trace] at he
        rcases List.mem_append.mp he with he | he
        · rcases List.mem_cons.mp he with rfl | he
          · rfl
          · rcases List.mem_cons.mp he with rfl | he
            · rfl
            · rcases List.mem_singleton.mp he with rfl
              rfl
        · obtain ⟨s, _, rfl⟩ := List.mem_map.mp he
          rfl

theorem phase2_no_txn (d : String) (o : FailureOracle) (model : List OrmTable) :
    ∀ (names : List String) (db : DbState),
    ∀ e ∈ (phase2 d o model names db).1, isTxnEvent e = false := by
  intro names
  induction names with
  | nil => intro db e he; cases he
  | cons tn rest ih =>
    intro db e he
    unfold phase2 at he
    cases hfind : model.find? (fun t => t.name == tn) with
    | none =>
      rw [hfind] at he
      exact ih db e he
    | some orm =>
      rw [hfind] at he
      rcases List.mem_append.mp he with he | he
      · exact phase2Table_no_txn d o orm db e he
      · exact ih _ e he

theorem createAllSem_any_mono (model : List OrmTable) (db : DbState) (x : String)
    (h : db.any (fun tb => tb.name == x) = true) :
    (createAllSem model db).any (fun tb => tb.name == x) = true := by
  induction model generalizing db with
  | nil => exact h
  | cons t rest ih =>
    unfold createAllSem
    by_cases hc : db.any (fun tb => tb.name == t.name)
    · simp only [hc, if_true, ite_true]
      exact ih db h
    · simp only [hc, Bool.false_eq_true, if_false, ite_false]
      exact ih _ (by rw [List.any_append]; simp [h])

theorem createAllSem_has_names (model : List OrmTable) (db : DbState) :
    ∀ t ∈ model, (createAllSem model db).any (fun tb => tb.name == t.name) = true := by
  induction model generalizing db with
  | nil => intro t ht; cases ht
  | cons t0 rest ih =>
    intro t ht
    unfold createAllSem
    rcases List.mem_cons.mp ht with rfl | ht
    · apply createAllSem_any_mono
      by_cases hc : db.any (fun tb => tb.name == t.name)
      · simp only [hc, if_true, ite_true]
      · simp only [hc, Bool.false_eq_true, if_false, ite_false]
        rw [List.any_append]
        simp [ormTableToDb]
    · exact ih _ t ht

theorem createAllSem_noop (model : List OrmTable) (db : DbState)
    (h : ∀ t ∈ model, db.any (fun tb => tb.name == t.name) = true) :
    createAllSem model db = db := by
  induction model with
  | nil => rfl
  | cons t0 rest ih =>
    unfold createAllSem
    rw [if_pos (h t0 (List.mem_cons_self t0 rest))]
    exact ih (fun t ht => h t (List.mem_cons_of_mem t0 ht))

/-- `create_all` is idempotent: a second bulk create is a no-op. -/
theorem createAllSem_idem (model : List OrmTable) (db : DbState) :
    createAllSem model (createAllSem model db) = createAllSem model db :=
  createAllSem_noop model _ (createAllSem_has_names model db)

/-- **C5 (amended)**: phase 1's `create_all` is idempotent, but both
phases share the single transaction opened by `engine.begin()` at
line 264: the trace of a syncing run has exactly one transaction,
whose body contains `create_all` and every phase-2 statement — no
phase-2 alteration commits on its own. -/
theorem C5_one_shared_transaction :
    (∀ (model : List OrmTable) (db : DbState) (d : String) (o : FailureOracle),
      o.inspect.tableList = false →
      (diffMismatchedNames o.inspect model db).isEmpty = false →
      o.createAll = false →
      ∃ pre mid, (compareAndSync model db true d o).trace
          = pre ++ [Event.txnBegin] ++ mid ++ [Event.txnCommit]
        ∧ pre.all (fun e => !isStmtEvent e && !isTxnEvent e) = true
        ∧ mid.all (fun e => !isTxnEvent e) = true
        ∧ Stmt.createAll ∈ attemptedStmts mid)
  ∧ (∀ (model : List OrmTable) (db : DbState),
      createAllSem model (createAllSem model db) = createAllSem model db) := by
  constructor
  · intro model db d o h1 h2 h4
    refine ⟨Event.introspect .tableNames :: (diffPhase o.inspect db model).1,
      Event.stmt .createAll true
        :: (phase2 d o model (diffMismatchedNames o.inspect model db)
            (createAllSem model db)).1, ?_, ?_, ?_, ?_⟩
    · rw [compareAndSync_sync_trace model db d o h1 h2 h4]
      simp
    · exact trace0_all_introspect o.inspect db model
    · rw [List.all_eq_true]
      intro e he
      rcases List.mem_cons.mp he with rfl | he
      · rfl
      · simp [phase2_no_txn d o model _ _ e he]
    · simp [attemptedStmts]
  · exact createAllSem_idem

/-- Witness for `C5_one_shared_transaction` on the concrete `t2`
scenario. -/
theorem C5_one_shared_transaction_witness :
    (∃ pre mid, (compareAndSync exModel2 exDb2 true "postgresql" oracleNone).trace
        = pre ++ [Event.txnBegin] ++ mid ++ [Event.txnCommit]
      ∧ pre.all (fun e => !isStmtEvent e && !isTxnEvent e) = true
      ∧ mid.all (fun e => !isTxnEvent e) = true
      ∧ Stmt.createAll ∈ attemptedStmts mid)
  ∧ createAllSem exModel2 (createAllSem exModel2 []) = createAllSem exModel2 [] :=
  ⟨C5_one_shared_transaction.1 exModel2 exDb2 "postgresql" oracleNone rfl (by decide) rfl,
   C5_one_shared_transaction.2 exModel2 []⟩

/-- **C5 counterexample**: in the concrete `t2` run the whole trace
contains exactly one `txnBegin`, and the phase-2 nullability
alteration lies strictly inside that single transaction — between its
begin and its commit, together with `create_all` — so it does not run
as an independent statement committing on its own. -/
theorem C5_counterexample :
    (compareAndSync exModel2 exDb2 true "postgresql" oracleNone).trace
      = [Event.introspect .tableNames, Event.introspect (.getColumns "t2"),
         Event.introspect (.getPk "t2"), Event.introspect (.getUq "t2"),
         Event.introspect (.getIdx "t2"), Event.txnBegin, Event.stmt .createAll true,
         Event.introspect (.getColumns "t2"), Event.introspect (.getUq "t2"),
         Event.introspect (.getIdx "t2"),
         Event.stmt (.alterNullable "t2" "c" true) true, Event.txnCommit]
  ∧ (((compareAndSync exModel2 exDb2 true "postgresql" oracleNone).trace.filter
        (fun e => isTxnBeginEv e)).length = 1)
  ∧ Event.stmt (.alterNullable "t2" "c" true) true
      ∈ betweenBeginCommit (compareAndSync exModel2 exDb2 true "postgresql" oracleNone).trace
  ∧ Event.stmt .createAll true
      ∈ betweenBeginCommit (compareAndSync exModel2 exDb2 true "postgresql" oracleNone).trace := by
  decide
